import Mathlib

/-!
Verification development for the Adverant Nexus OpenClaw plugin.

The definitions below are a shallow embedding of the repository's core
components: the credential vault (`ChannelEncryption` in
src/database/repositories/channel-repository.ts), the channel adapters
(src/channels/telegram-adapter.ts, src/channels/whatsapp-adapter.ts),
the realtime gateway (`OpenClawGateway`), the channel repository, and the
auth client (src/auth/nexus-auth-client.ts).

External collaborators (node's AES-256-GCM cipher, the JS JSON engine,
the network libraries, Redis, the auth service) are modelled as explicit
capability parameters; the repository's own control flow and data
transformations are embedded concretely.
-/

/-! ## Bytes and the hex codec

Node `Buffer` values are byte sequences; `buf.toString('hex')` and
`Buffer.from(s, 'hex')` are the encodings used by `ChannelEncryption`.
`Buffer.from(s, 'hex')` is permissive: decoding stops at the first
character pair that is not valid hex, and a trailing odd nibble is
dropped, which the embedding reproduces. -/

abbrev Byte := Fin 256

abbrev Bytes := List Byte

def hexDigitChar (n : Fin 16) : Char :=
  if n.val < 10 then Char.ofNat (48 + n.val) else Char.ofNat (87 + n.val)

def byteToHexChars (b : Byte) : List Char :=
  [hexDigitChar ⟨b.val / 16, by omega⟩, hexDigitChar ⟨b.val % 16, by omega⟩]

def bytesToHex (bs : Bytes) : String :=
  ⟨(bs.map byteToHexChars).flatten⟩

def hexCharVal (c : Char) : Option (Fin 16) :=
  if h1 : 48 ≤ c.toNat ∧ c.toNat ≤ 57 then some ⟨c.toNat - 48, by omega⟩
  else if h2 : 97 ≤ c.toNat ∧ c.toNat ≤ 102 then some ⟨c.toNat - 87, by omega⟩
  else if h3 : 65 ≤ c.toNat ∧ c.toNat ≤ 70 then some ⟨c.toNat - 55, by omega⟩
  else none

def hexPairsToBytes : List Char → Bytes
  | c1 :: c2 :: rest =>
    match hexCharVal c1, hexCharVal c2 with
    | some h, some l => (⟨16 * h.val + l.val, by omega⟩ : Byte) :: hexPairsToBytes rest
    | _, _ => []
  | _ => []

def hexToBytes (s : String) : Bytes :=
  hexPairsToBytes s.data

theorem hexCharVal_hexDigitChar (n : Fin 16) : hexCharVal (hexDigitChar n) = some n := by
  revert n
  decide

theorem hexPairsToBytes_byte (b : Byte) (rest : List Char) :
    hexPairsToBytes (byteToHexChars b ++ rest) = b :: hexPairsToBytes rest := by
  simp only [byteToHexChars, List.cons_append, List.nil_append, hexPairsToBytes,
    hexCharVal_hexDigitChar]
  congr 1
  exact Fin.ext (by simpa using Nat.div_add_mod b.val 16)

theorem hexToBytes_bytesToHex (bs : Bytes) : hexToBytes (bytesToHex bs) = bs := by
  induction bs with
  | nil => rfl
  | cons b rest ih =>
    show hexPairsToBytes (byteToHexChars b ++ (rest.map byteToHexChars).flatten) = b :: rest
    rw [hexPairsToBytes_byte]
    exact congrArg (b :: ·) ih

/-! ## JSON values and external engines

Channel configurations are JSON-serializable records
(`Record<string, any>` in the source).  The JS JSON engine
(`JSON.stringify` / `JSON.parse`) and node's `aes-256-gcm` cipher
(`crypto.createCipheriv` / `crypto.createDecipheriv`) are external
collaborators: they enter the embedding as capability structures, and
the theorems take their contracts as explicit hypotheses, discharged on
concrete instances in the witnesses. -/

inductive Json where
  | null : Json
  | bool (b : Bool) : Json
  | num (n : Int) : Json
  | str (s : String) : Json
  | arr (items : List Json) : Json
  | obj (fields : List (String × Json)) : Json

/-- The JS JSON engine: `JSON.stringify` and `JSON.parse`.  `parse`
returns `none` where `JSON.parse` throws a `SyntaxError`. -/
structure JsonEngine where
  stringify : Json → String
  parse : String → Option Json

/-- An authenticated symmetric cipher with the node
`crypto` GCM interface shape: `enc key iv plaintext` returns the
ciphertext (`cipher.update` concatenated with `cipher.final`) paired
with the authentication tag (`cipher.getAuthTag`); `dec key iv authTag
ciphertext` returns the decrypted plaintext, or `none` where
`decipher.final()` throws because authentication fails. -/
structure AeadCipher where
  enc : Bytes → Bytes → String → Bytes × Bytes
  dec : Bytes → Bytes → Bytes → Bytes → Option String

/-! ## ChannelEncryption
(src/database/repositories/channel-repository.ts, lines 19-73) -/

/-- Errors thrown out of `ChannelEncryption.decrypt`:
`malformedRecord` covers a persisted string whose envelope does not
parse as a JSON object carrying string `iv`, `data` and `authTag`
fields (`JSON.parse` throws, or `Buffer.from(undefined, 'hex')` throws
a TypeError); `authFailed` is `decipher.final()` throwing on an
authentication-tag mismatch; `badPlaintext` is the final `JSON.parse`
of the decrypted bytes throwing. -/
inductive DecryptionError where
  | malformedRecord : DecryptionError
  | authFailed : DecryptionError
  | badPlaintext : DecryptionError
deriving DecidableEq

/-- The state of a `ChannelEncryption` instance: the key derived once in
the constructor from `CHANNEL_ENCRYPTION_KEY` via
`crypto.scryptSync(encryptionKey, 'salt', 32)` (key derivation is
external; the derived key is carried as a value). -/
structure ChannelEncryption where
  key : Bytes

/-- The envelope object built by `encrypt` (channel-repository.ts lines
44-48): a JSON object with hex-string fields `iv`, `data`, `authTag`. -/
def ChannelEncryption.envelope (iv ciphertext authTag : Bytes) : Json :=
  Json.obj
    [("iv", Json.str (bytesToHex iv)),
     ("data", Json.str (bytesToHex ciphertext)),
     ("authTag", Json.str (bytesToHex authTag))]

/-- `ChannelEncryption.encrypt` (channel-repository.ts lines 32-49).
The fresh random `iv` (`crypto.randomBytes(16)`) is an input to the
embedding. -/
def ChannelEncryption.encrypt (A : AeadCipher) (J : JsonEngine) (E : ChannelEncryption)
    (iv : Bytes) (data : Json) : String :=
  let r := A.enc E.key iv (J.stringify data)
  J.stringify (ChannelEncryption.envelope iv r.1 r.2)

/-- Field lookup on a parsed JSON object: the destructuring
`const { iv, data, authTag } = JSON.parse(encrypted)` followed by
`Buffer.from(field, 'hex')`, which throws a TypeError unless the field
is a string. -/
def jsonStrField (w : Json) (name : String) : Option String :=
  match w with
  | Json.obj fields => match fields.lookup name with
    | some (Json.str s) => some s
    | _ => none
  | _ => none

/-- The envelope fields recovered from a persisted record, or `none`
if the record is malformed. -/
def ChannelEncryption.envelopeFields (J : JsonEngine) (encrypted : String) :
    Option (String × String × String) :=
  match J.parse encrypted with
  | none => none
  | some w =>
    match jsonStrField w "iv", jsonStrField w "data", jsonStrField w "authTag" with
    | some i, some d, some t => some (i, d, t)
    | _, _, _ => none

/-- `ChannelEncryption.decrypt` (channel-repository.ts lines 54-72):
parse the envelope, hex-decode its fields, run the authenticated
decipher with the stored tag, and `JSON.parse` the plaintext.  Every
failure surfaces as a thrown error (`Except.error`); no data is
returned on any failure path. -/
def ChannelEncryption.decrypt (A : AeadCipher) (J : JsonEngine) (E : ChannelEncryption)
    (encrypted : String) : Except DecryptionError Json :=
  match ChannelEncryption.envelopeFields J encrypted with
  | none => .error .malformedRecord
  | some (ivHex, dataHex, tagHex) =>
    match A.dec E.key (hexToBytes ivHex) (hexToBytes tagHex) (hexToBytes dataHex) with
    | none => .error .authFailed
    | some plaintext =>
      match J.parse plaintext with
      | none => .error .badPlaintext
      | some j => .ok j

theorem envelopeFields_envelope (J : JsonEngine) (iv ct tag : Bytes)
    (h : J.parse (J.stringify (ChannelEncryption.envelope iv ct tag))
        = some (ChannelEncryption.envelope iv ct tag)) :
    ChannelEncryption.envelopeFields J (J.stringify (ChannelEncryption.envelope iv ct tag))
      = some (bytesToHex iv, bytesToHex ct, bytesToHex tag) := by
  unfold ChannelEncryption.envelopeFields
  rw [h]
  rfl

/-- Claim C1: for every valid configuration object `x`, decrypting the
persisted output of `ChannelEncryption.encrypt` under the same derived
key returns `x`.  The hypotheses are the contracts of the external
collaborators at the relevant points: the JSON engine round-trips the
envelope object and the configuration object, and the GCM cipher is
correct under matching key, iv and tag. -/
theorem C1_decrypt_encrypt_roundtrip (A : AeadCipher) (J : JsonEngine)
    (E : ChannelEncryption) (iv : Bytes) (x : Json)
    (henv : J.parse (J.stringify (ChannelEncryption.envelope iv
          (A.enc E.key iv (J.stringify x)).1 (A.enc E.key iv (J.stringify x)).2))
        = some (ChannelEncryption.envelope iv
          (A.enc E.key iv (J.stringify x)).1 (A.enc E.key iv (J.stringify x)).2))
    (haead : A.dec E.key iv (A.enc E.key iv (J.stringify x)).2
          (A.enc E.key iv (J.stringify x)).1 = some (J.stringify x))
    (hjson : J.parse (J.stringify x) = some x) :
    ChannelEncryption.decrypt A J E (ChannelEncryption.encrypt A J E iv x) = .ok x := by
  unfold ChannelEncryption.decrypt
  rw [show ChannelEncryption.encrypt A J E iv x
      = J.stringify (ChannelEncryption.envelope iv
          (A.enc E.key iv (J.stringify x)).1 (A.enc E.key iv (J.stringify x)).2) from rfl]
  rw [envelopeFields_envelope J _ _ _ henv]
  simp only [hexToBytes_bytesToHex, haead, hjson]

/-- Claim C2: decryption fails closed.  For every persisted record on
which the authenticated decipher rejects (every tampered ciphertext or
authentication tag), and for every malformed record,
`ChannelEncryption.decrypt` raises an error; it never returns decrypted
data, partial or whole. -/
theorem C2_decrypt_fails_closed (A : AeadCipher) (J : JsonEngine)
    (E : ChannelEncryption) (encrypted : String)
    (hauth : ∀ f ∈ ChannelEncryption.envelopeFields J encrypted,
        A.dec E.key (hexToBytes f.1) (hexToBytes f.2.2) (hexToBytes f.2.1) = none) :
    ∃ e, ChannelEncryption.decrypt A J E encrypted = .error e := by
  unfold ChannelEncryption.decrypt
  cases h : ChannelEncryption.envelopeFields J encrypted with
  | none => exact ⟨.malformedRecord, rfl⟩
  | some f =>
    obtain ⟨ivHex, dataHex, tagHex⟩ := f
    have hd := hauth (ivHex, dataHex, tagHex) (by rw [Option.mem_def, h])
    dsimp only at hd ⊢
    rw [hd]
    exact ⟨.authFailed, rfl⟩

/-! ## Concrete instances of the external collaborators

Small executable stand-ins used only to discharge the collaborator
contracts on the concrete inputs of witness theorems. -/

def strToBytes (s : String) : Bytes :=
  s.data.map fun c => (⟨c.toNat % 256, Nat.mod_lt _ (by omega)⟩ : Byte)

def bytesToStr (bs : Bytes) : String :=
  ⟨bs.map fun b => Char.ofNat b.val⟩

def toyTagByte (key iv ct : Bytes) : Byte :=
  ⟨((key ++ iv ++ ct).foldl (fun a b => a + b.val) 7) % 256, Nat.mod_lt _ (by omega)⟩

/-- A toy authenticated cipher: the ciphertext is the plaintext's byte
sequence and the tag is a one-byte checksum over key, iv and
ciphertext; decryption rejects unless the presented tag matches. -/
def toyAead : AeadCipher where
  enc := fun key iv pt => (strToBytes pt, [toyTagByte key iv (strToBytes pt)])
  dec := fun key iv tag ct =>
    if tag = [toyTagByte key iv ct] then some (bytesToStr ct) else none

def toyEscape (s : String) : List Char :=
  (s.data.map fun c => if c = ';' ∨ c = '\\' then ['\\', c] else [c]).flatten ++ [';']

/-- A toy serialization covering flat objects whose values are strings
(the shape of channel configurations and of the encryption envelope). -/
def toyStringify (j : Json) : String :=
  match j with
  | Json.obj fields =>
    ⟨'o' :: (fields.map fun f =>
        match f.2 with
        | Json.str v => toyEscape f.1 ++ toyEscape v
        | _ => ['!']).flatten⟩
  | _ => "!"

def toyReadStrAux (fuel : Nat) (acc : List Char) (cs : List Char) :
    Option (String × List Char) :=
  match fuel, cs with
  | 0, _ => none
  | _ + 1, [] => none
  | f + 1, '\\' :: c :: rest => toyReadStrAux f (acc ++ [c]) rest
  | _ + 1, ';' :: rest => some (⟨acc⟩, rest)
  | f + 1, c :: rest => toyReadStrAux f (acc ++ [c]) rest

def toyReadFields (fuel : Nat) (cs : List Char) : Option (List (String × Json)) :=
  match fuel with
  | 0 => none
  | f + 1 =>
    match cs with
    | [] => some []
    | _ =>
      match toyReadStrAux cs.length [] cs with
      | none => none
      | some (k, rest1) =>
        match toyReadStrAux rest1.length [] rest1 with
        | none => none
        | some (v, rest2) =>
          match toyReadFields f rest2 with
          | none => none
          | some fs => some ((k, Json.str v) :: fs)

def toyParse (s : String) : Option Json :=
  match s.data with
  | 'o' :: rest => (toyReadFields (rest.length + 1) rest).map Json.obj
  | _ => none

def toyJson : JsonEngine where
  stringify := toyStringify
  parse := toyParse

def witnessKey : Bytes := strToBytes "default-dev-key-32-chars-long!"

def witnessIv : Bytes := [1, 2, 3, 4, 5, 6, 7, 8, 9, 10, 11, 12, 13, 14, 15, 16]

def witnessConfig : Json := Json.obj [("botToken", Json.str "tg-secret-token")]

set_option maxRecDepth 100000 in
/-- Witness for C1 at a concrete configuration, key and iv, with the
collaborator contracts discharged on the toy instances. -/
theorem C1_decrypt_encrypt_roundtrip_witness :
    ChannelEncryption.decrypt toyAead toyJson ⟨witnessKey⟩
      (ChannelEncryption.encrypt toyAead toyJson ⟨witnessKey⟩ witnessIv witnessConfig)
      = .ok witnessConfig :=
  C1_decrypt_encrypt_roundtrip toyAead toyJson ⟨witnessKey⟩ witnessIv witnessConfig
    (by rfl) (by rfl) (by rfl)

/-- A persisted record whose authentication tag was tampered with (the
stored tag byte does not match the cipher's tag for the stored
ciphertext). -/
def tamperedRecord : String :=
  toyStringify (ChannelEncryption.envelope witnessIv (strToBytes "payload") [0])

set_option maxRecDepth 100000 in
/-- Witness for C2: decrypting a concrete record with a tampered
authentication tag raises an error. -/
theorem C2_decrypt_fails_closed_witness :
    ∃ e, ChannelEncryption.decrypt toyAead toyJson ⟨witnessKey⟩ tamperedRecord = .error e :=
  C2_decrypt_fails_closed toyAead toyJson ⟨witnessKey⟩ tamperedRecord (by
    intro f hf
    rw [Option.mem_def] at hf
    have h0 : ChannelEncryption.envelopeFields toyJson tamperedRecord
        = some (bytesToHex witnessIv, bytesToHex (strToBytes "payload"),
            bytesToHex ([0] : Bytes)) := by rfl
    rw [h0] at hf
    injection hf with h1
    subst h1
    rfl)

/-! ## Channel adapters

Shallow embedding of the three adapter variants
(src/channels/telegram-adapter.ts: `TelegramAdapter` and
`DiscordAdapter`; src/channels/whatsapp-adapter.ts: `WhatsAppAdapter`).
Each adapter's mutable instance fields become a state structure; the
`options`/`config` fields assigned by `initialize()` are tracked by an
`initialized` flag (they are declared with TypeScript definite
assignment `!`, so touching them before `initialize()` throws a
TypeError at runtime); network calls are external and their outcomes
enter through a world structure. -/

inductive ConnectionStatus where
  | disconnected : ConnectionStatus
  | connecting : ConnectionStatus
  | connected : ConnectionStatus
  | error : ConnectionStatus
deriving DecidableEq

structure ChannelStats where
  messagesReceived : Nat
  messagesSent : Nat
  errors : Nat
deriving DecidableEq

/-- JS exceptions observable from adapter methods: a `typeError` from a
property access on an undefined field, or the rejection of an awaited
external call propagating out. -/
inductive JsError where
  | typeError : JsError
  | rejected : JsError
deriving DecidableEq

/-- An invocation of the `onStatusChange` callback handed to the
adapter at initialization. -/
inductive AdapterEvent where
  | statusChange (status : ConnectionStatus) (errMsg : Option String) : AdapterEvent
deriving DecidableEq

/-- Result of one adapter method call: the new adapter state, the
status-change callbacks emitted, and the error thrown out of the
method, if any. -/
structure AdapterResult (σ : Type) where
  state : σ
  events : List AdapterEvent
  thrown : Option JsError
deriving DecidableEq

/-! ### TelegramAdapter (telegram-adapter.ts lines 40-701) -/

structure TelegramState where
  initialized : Bool
  webhookUrl : Bool
  bot : Bool
  runner : Bool
  status : ConnectionStatus
  isShuttingDown : Bool
  stats : ChannelStats
deriving DecidableEq

/-- Outcomes of the Telegram adapter's external calls. -/
structure TelegramWorld where
  startOk : Bool
  runnerStopOk : Bool
  deleteWebhookOk : Bool
deriving DecidableEq

/-- `TelegramAdapter.connect` (lines 71-111).  An already-connected
adapter logs a warning and returns (lines 72-75).  Otherwise the status
moves to connecting (emitted), a fresh `Bot` is created, and
`startBot()` runs; on success the status is connected (emitted), on
rejection the catch block emits error status and rethrows. -/
def TelegramAdapter.connect (w : TelegramWorld) (s : TelegramState) :
    AdapterResult TelegramState :=
  if s.status = ConnectionStatus.connected then
    if s.initialized then ⟨s, [], none⟩ else ⟨s, [], some JsError.typeError⟩
  else if s.initialized = false then
    ⟨{ s with status := ConnectionStatus.connecting }, [], some JsError.typeError⟩
  else
    let s1 := { s with status := ConnectionStatus.connecting, bot := true }
    if w.startOk then
      ⟨{ s1 with status := ConnectionStatus.connected },
       [AdapterEvent.statusChange ConnectionStatus.connecting none,
        AdapterEvent.statusChange ConnectionStatus.connected none], none⟩
    else
      ⟨{ s1 with status := ConnectionStatus.error },
       [AdapterEvent.statusChange ConnectionStatus.connecting none,
        AdapterEvent.statusChange ConnectionStatus.error (some "Connection failed")],
       some JsError.rejected⟩

/-- `TelegramAdapter.disconnect` (lines 664-683): set `isShuttingDown`,
log (a TypeError on a never-initialized adapter, since `this.options`
is undefined), stop the runner if present, delete the webhook when in
webhook mode, null the bot, set and emit disconnected status.  A
rejection of `runner.stop()` or `bot.api.deleteWebhook()` is not
caught and propagates. -/
def TelegramAdapter.disconnect (w : TelegramWorld) (s : TelegramState) :
    AdapterResult TelegramState :=
  let s0 := { s with isShuttingDown := true }
  if s0.initialized = false then ⟨s0, [], some JsError.typeError⟩
  else if s0.runner && !w.runnerStopOk then ⟨s0, [], some JsError.rejected⟩
  else
    let s1 := { s0 with runner := false }
    if s1.bot && s1.webhookUrl && !w.deleteWebhookOk then ⟨s1, [], some JsError.rejected⟩
    else
      ⟨{ s1 with bot := false, status := ConnectionStatus.disconnected },
       [AdapterEvent.statusChange ConnectionStatus.disconnected none], none⟩

/-! ### WhatsAppAdapter (whatsapp-adapter.ts lines 53-617) -/

structure WhatsAppState where
  initialized : Bool
  socket : Bool
  status : ConnectionStatus
  isShuttingDown : Bool
  reconnectAttempts : Nat
  maxReconnectAttempts : Nat
  stats : ChannelStats
deriving DecidableEq

/-- Outcomes of the WhatsApp adapter's external calls. -/
structure WhatsAppWorld where
  startOk : Bool
  logoutOk : Bool
deriving DecidableEq

/-- Field initializers of a fresh `WhatsAppAdapter` (lines 54-70):
`reconnectAttempts = 0`, `maxReconnectAttempts = 10`. -/
def WhatsAppAdapter.initialState : WhatsAppState :=
  { initialized := false, socket := false, status := ConnectionStatus.disconnected,
    isShuttingDown := false, reconnectAttempts := 0, maxReconnectAttempts := 10,
    stats := ⟨0, 0, 0⟩ }

/-- `WhatsAppAdapter.connect` (lines 97-127).  Note that a successful
`startSocket()` leaves the status at connecting: the connected status
is reached later through the `connection.update` event
(`handleConnectionOpen`). -/
def WhatsAppAdapter.connect (w : WhatsAppWorld) (s : WhatsAppState) :
    AdapterResult WhatsAppState :=
  if s.status = ConnectionStatus.connected then
    if s.initialized then ⟨s, [], none⟩ else ⟨s, [], some JsError.typeError⟩
  else if s.initialized = false then
    ⟨{ s with status := ConnectionStatus.connecting }, [], some JsError.typeError⟩
  else
    let s1 := { s with status := ConnectionStatus.connecting }
    if w.startOk then
      ⟨{ s1 with socket := true },
       [AdapterEvent.statusChange ConnectionStatus.connecting none], none⟩
    else
      ⟨{ s1 with status := ConnectionStatus.error },
       [AdapterEvent.statusChange ConnectionStatus.connecting none,
        AdapterEvent.statusChange ConnectionStatus.error (some "Connection failed")],
       some JsError.rejected⟩

/-- `WhatsAppAdapter.disconnect` (lines 576-592): set `isShuttingDown`,
log (TypeError on a never-initialized adapter: `this.options` and
`this.config` are undefined), await `socket.logout()` when a socket
exists (a rejection propagates), then set and emit disconnected. -/
def WhatsAppAdapter.disconnect (w : WhatsAppWorld) (s : WhatsAppState) :
    AdapterResult WhatsAppState :=
  let s0 := { s with isShuttingDown := true }
  if s0.initialized = false then ⟨s0, [], some JsError.typeError⟩
  else if s0.socket && !w.logoutOk then ⟨s0, [], some JsError.rejected⟩
  else
    ⟨{ s0 with socket := false, status := ConnectionStatus.disconnected },
     [AdapterEvent.statusChange ConnectionStatus.disconnected none], none⟩

/-- Actions performed by the WhatsApp connection-close handler: an
`onStatusChange` emission, or arming the reconnect timer
(`setTimeout(() => this.startSocket(), delay)`). -/
inductive WaAction where
  | emit (status : ConnectionStatus) (errMsg : Option String) : WaAction
  | scheduleReconnect (delayMs : Nat) : WaAction
deriving DecidableEq

/-- `WhatsAppAdapter.handleConnectionClose` (lines 232-266).
`shouldReconnect` is the line-233 test that the disconnect status code
is not `DisconnectReason.loggedOut`.  The backoff delay is
`Math.min(1000 * Math.pow(2, this.reconnectAttempts), 30000)` computed
before the attempt counter is incremented. -/
def WhatsAppAdapter.handleConnectionClose (shouldReconnect : Bool) (s : WhatsAppState) :
    WhatsAppState × List WaAction :=
  if shouldReconnect && !s.isShuttingDown then
    let delay := min (1000 * 2 ^ s.reconnectAttempts) 30000
    if s.reconnectAttempts < s.maxReconnectAttempts then
      ({ s with reconnectAttempts := s.reconnectAttempts + 1 },
       [WaAction.scheduleReconnect delay])
    else
      ({ s with status := ConnectionStatus.error },
       [WaAction.emit ConnectionStatus.error (some "Max reconnection attempts reached")])
  else
    ({ s with status := ConnectionStatus.disconnected },
     [WaAction.emit ConnectionStatus.disconnected none])

/-- `WhatsAppAdapter.handleConnectionOpen` (lines 271-283): the attempt
counter resets to zero and the connected status is set and emitted. -/
def WhatsAppAdapter.handleConnectionOpen (s : WhatsAppState) :
    WhatsAppState × List WaAction :=
  ({ s with reconnectAttempts := 0, status := ConnectionStatus.connected },
   [WaAction.emit ConnectionStatus.connected none])

/-! ### DiscordAdapter (telegram-adapter.ts lines 754-1297) -/

structure DiscordState where
  initialized : Bool
  client : Bool
  status : ConnectionStatus
  isShuttingDown : Bool
  stats : ChannelStats
deriving DecidableEq

/-- Outcomes of the Discord adapter's external calls. -/
structure DiscordWorld where
  loginOk : Bool
  destroyOk : Bool
deriving DecidableEq

/-- `DiscordAdapter.connect` (lines 784-828).  An already-connected
adapter logs and returns.  `registerSlashCommands` catches its own
errors (lines 1119-1121), so only `client.login` can reject; the catch
block then emits error status and rethrows. -/
def DiscordAdapter.connect (w : DiscordWorld) (s : DiscordState) :
    AdapterResult DiscordState :=
  if s.status = ConnectionStatus.connected then
    if s.initialized then ⟨s, [], none⟩ else ⟨s, [], some JsError.typeError⟩
  else if s.initialized = false then
    ⟨{ s with status := ConnectionStatus.connecting }, [], some JsError.typeError⟩
  else
    let s1 := { s with status := ConnectionStatus.connecting, client := true }
    if w.loginOk then
      ⟨{ s1 with status := ConnectionStatus.connected },
       [AdapterEvent.statusChange ConnectionStatus.connecting none,
        AdapterEvent.statusChange ConnectionStatus.connected none], none⟩
    else
      ⟨{ s1 with status := ConnectionStatus.error },
       [AdapterEvent.statusChange ConnectionStatus.connecting none,
        AdapterEvent.statusChange ConnectionStatus.error (some "Connection failed")],
       some JsError.rejected⟩

/-- `DiscordAdapter.disconnect` (lines 1265-1279): same shape as the
other variants; a rejection of `client.destroy()` propagates. -/
def DiscordAdapter.disconnect (w : DiscordWorld) (s : DiscordState) :
    AdapterResult DiscordState :=
  let s0 := { s with isShuttingDown := true }
  if s0.initialized = false then ⟨s0, [], some JsError.typeError⟩
  else if s0.client && !w.destroyOk then ⟨s0, [], some JsError.rejected⟩
  else
    ⟨{ s0 with client := false, status := ConnectionStatus.disconnected },
     [AdapterEvent.statusChange ConnectionStatus.disconnected none], none⟩

/-- `DiscordAdapter.attemptReconnect` (lines 1248-1260): destroy the
client if present, then call `connect()`; any rejection is caught and
only logged.  The returned flag records whether `connect()` (the
connect path) was invoked.  There is no attempt counter and no backoff
timer. -/
def DiscordAdapter.attemptReconnect (w : DiscordWorld) (s : DiscordState) :
    DiscordState × List AdapterEvent × Bool :=
  if s.client && !w.destroyOk then (s, [], false)
  else
    let r := DiscordAdapter.connect w { s with client := false }
    (r.state, r.events, true)

/-- The `Events.ShardDisconnect` handler (lines 896-901): unless the
adapter is shutting down, every disconnect event invokes
`attemptReconnect`. -/
def DiscordAdapter.onShardDisconnect (w : DiscordWorld) (s : DiscordState) :
    DiscordState × List AdapterEvent × Bool :=
  if s.isShuttingDown then (s, [], false)
  else DiscordAdapter.attemptReconnect w s

/-! ### Claims C3-C6 -/

def telegramUninitialized : TelegramState :=
  { initialized := false, webhookUrl := false, bot := false, runner := false,
    status := ConnectionStatus.disconnected, isShuttingDown := false, stats := ⟨0, 0, 0⟩ }

def discordUninitialized : DiscordState :=
  { initialized := false, client := false, status := ConnectionStatus.disconnected,
    isShuttingDown := false, stats := ⟨0, 0, 0⟩ }

/-- Claim C3 is false as stated: on an adapter that was never
initialized, `disconnect()` throws a TypeError in every variant,
because it reads `this.options.logger` (and, for WhatsApp,
`this.config.sessionId`) before any guard, and `options`/`config` are
only assigned by `initialize()`. -/
theorem C3_counterexample_uninitialized_disconnect_throws :
    (TelegramAdapter.disconnect ⟨true, true, true⟩ telegramUninitialized).thrown
        = some JsError.typeError
    ∧ (WhatsAppAdapter.disconnect ⟨true, true⟩ WhatsAppAdapter.initialState).thrown
        = some JsError.typeError
    ∧ (DiscordAdapter.disconnect ⟨true, true⟩ discordUninitialized).thrown
        = some JsError.typeError :=
  ⟨rfl, rfl, rfl⟩

/-- Claim C3, amended: for every adapter variant that has been
initialized, and whose external teardown calls do not reject,
`disconnect()` completes without throwing with the status ending
disconnected, and a second `disconnect()` again completes without
throwing, leaving the state unchanged (idempotent). -/
theorem C3_disconnect_idempotent_initialized_adapter
    (w1 : TelegramWorld) (s1 : TelegramState)
    (w2 : WhatsAppWorld) (s2 : WhatsAppState)
    (w3 : DiscordWorld) (s3 : DiscordState)
    (h1 : s1.initialized = true) (h1a : w1.runnerStopOk = true)
    (h1b : w1.deleteWebhookOk = true)
    (h2 : s2.initialized = true) (h2a : w2.logoutOk = true)
    (h3 : s3.initialized = true) (h3a : w3.destroyOk = true) :
    ((TelegramAdapter.disconnect w1 s1).thrown = none
      ∧ (TelegramAdapter.disconnect w1 s1).state.status = ConnectionStatus.disconnected
      ∧ TelegramAdapter.disconnect w1 (TelegramAdapter.disconnect w1 s1).state
          = ⟨(TelegramAdapter.disconnect w1 s1).state,
             [AdapterEvent.statusChange ConnectionStatus.disconnected none], none⟩)
    ∧ ((WhatsAppAdapter.disconnect w2 s2).thrown = none
      ∧ (WhatsAppAdapter.disconnect w2 s2).state.status = ConnectionStatus.disconnected
      ∧ WhatsAppAdapter.disconnect w2 (WhatsAppAdapter.disconnect w2 s2).state
          = ⟨(WhatsAppAdapter.disconnect w2 s2).state,
             [AdapterEvent.statusChange ConnectionStatus.disconnected none], none⟩)
    ∧ ((DiscordAdapter.disconnect w3 s3).thrown = none
      ∧ (DiscordAdapter.disconnect w3 s3).state.status = ConnectionStatus.disconnected
      ∧ DiscordAdapter.disconnect w3 (DiscordAdapter.disconnect w3 s3).state
          = ⟨(DiscordAdapter.disconnect w3 s3).state,
             [AdapterEvent.statusChange ConnectionStatus.disconnected none], none⟩) := by
  refine ⟨⟨?_, ?_, ?_⟩, ⟨?_, ?_, ?_⟩, ⟨?_, ?_, ?_⟩⟩ <;>
    simp [TelegramAdapter.disconnect, WhatsAppAdapter.disconnect,
      DiscordAdapter.disconnect, h1, h1a, h1b, h2, h2a, h3, h3a]

def telegramConnectedState : TelegramState :=
  { initialized := true, webhookUrl := false, bot := true, runner := true,
    status := ConnectionStatus.connected, isShuttingDown := false, stats := ⟨3, 2, 0⟩ }

def whatsAppConnectedState : WhatsAppState :=
  { initialized := true, socket := true, status := ConnectionStatus.connected,
    isShuttingDown := false, reconnectAttempts := 0, maxReconnectAttempts := 10,
    stats := ⟨1, 1, 0⟩ }

def discordConnectedState : DiscordState :=
  { initialized := true, client := true, status := ConnectionStatus.connected,
    isShuttingDown := false, stats := ⟨0, 0, 0⟩ }

/-- Witness for the amended C3 at concrete initialized states. -/
theorem C3_disconnect_idempotent_initialized_adapter_witness :
    (TelegramAdapter.disconnect ⟨true, true, true⟩ telegramConnectedState).thrown = none
    ∧ (WhatsAppAdapter.disconnect ⟨true, true⟩ whatsAppConnectedState).thrown = none
    ∧ (DiscordAdapter.disconnect ⟨true, true⟩ discordConnectedState).thrown = none :=
  ⟨(C3_disconnect_idempotent_initialized_adapter ⟨true, true, true⟩ telegramConnectedState
      ⟨true, true⟩ whatsAppConnectedState ⟨true, true⟩ discordConnectedState
      rfl rfl rfl rfl rfl rfl rfl).1.1,
   (C3_disconnect_idempotent_initialized_adapter ⟨true, true, true⟩ telegramConnectedState
      ⟨true, true⟩ whatsAppConnectedState ⟨true, true⟩ discordConnectedState
      rfl rfl rfl rfl rfl rfl rfl).2.1.1,
   (C3_disconnect_idempotent_initialized_adapter ⟨true, true, true⟩ telegramConnectedState
      ⟨true, true⟩ whatsAppConnectedState ⟨true, true⟩ discordConnectedState
      rfl rfl rfl rfl rfl rfl rfl).2.2.1⟩

/-- The world of a persistent transient failure for the Discord
adapter: logins reject, destroys resolve. -/
def discordTransientWorld : DiscordWorld := { loginOk := false, destroyOk := true }

/-- The Discord adapter state after `n` consecutive transient
disconnect events. -/
def discordRun : Nat → DiscordState
  | 0 => discordConnectedState
  | n + 1 => (DiscordAdapter.onShardDisconnect discordTransientWorld (discordRun n)).1

/-- Claim C4 is false as stated for the Discord variant: it has no
attempt counter at all.  After 11 consecutive transient disconnects
(one beyond the default maximum of 10 the spec names), the next
disconnect event still invokes the connect path, and the status has
never become error (it is still reported connected, so `connect()`
inside `attemptReconnect` returns as a no-op and no reconnection
happens either). -/
theorem C4_counterexample_discord_reconnect_unbounded :
    (DiscordAdapter.onShardDisconnect discordTransientWorld (discordRun 11)).2.2 = true
    ∧ (discordRun 11).status = ConnectionStatus.connected := by
  decide

/-- Claim C4, amended: only the WhatsApp adapter bounds its reconnect
attempts: once `reconnectAttempts` has reached `maxReconnectAttempts`,
a further transient close sets the status to error, emits it, and arms
no reconnect timer, and the attempt counter stays exhausted.  The
Discord adapter schedules no timer but re-enters the connect path on
every transient disconnect event without any bound. -/
theorem C4_whatsapp_exhaustion_terminal (s : WhatsAppState)
    (t : DiscordState) (w : DiscordWorld)
    (hmax : s.maxReconnectAttempts ≤ s.reconnectAttempts)
    (hsd : s.isShuttingDown = false)
    (htd : t.isShuttingDown = false) (hw : w.destroyOk = true) :
    WhatsAppAdapter.handleConnectionClose true s
      = ({ s with status := ConnectionStatus.error },
         [WaAction.emit ConnectionStatus.error (some "Max reconnection attempts reached")])
    ∧ (WhatsAppAdapter.handleConnectionClose true s).1.reconnectAttempts
        = s.reconnectAttempts
    ∧ (DiscordAdapter.onShardDisconnect w t).2.2 = true := by
  have hnlt : ¬ (s.reconnectAttempts < s.maxReconnectAttempts) := by omega
  have hbranch : WhatsAppAdapter.handleConnectionClose true s
      = ({ s with status := ConnectionStatus.error },
         [WaAction.emit ConnectionStatus.error (some "Max reconnection attempts reached")]) := by
    simp [WhatsAppAdapter.handleConnectionClose, hsd, hnlt]
  refine ⟨hbranch, by rw [hbranch], ?_⟩
  simp [DiscordAdapter.onShardDisconnect, DiscordAdapter.attemptReconnect, htd, hw]

def whatsAppExhaustedState : WhatsAppState :=
  { initialized := true, socket := true, status := ConnectionStatus.connecting,
    isShuttingDown := false, reconnectAttempts := 10, maxReconnectAttempts := 10,
    stats := ⟨5, 4, 3⟩ }

/-- Witness for the amended C4 at a concrete exhausted WhatsApp state. -/
theorem C4_whatsapp_exhaustion_terminal_witness :
    WhatsAppAdapter.handleConnectionClose true whatsAppExhaustedState
      = ({ whatsAppExhaustedState with status := ConnectionStatus.error },
         [WaAction.emit ConnectionStatus.error (some "Max reconnection attempts reached")]) :=
  (C4_whatsapp_exhaustion_terminal whatsAppExhaustedState discordConnectedState
    ⟨true, true⟩ (by decide) rfl rfl rfl).1

/-- Claim C5: the WhatsApp reconnection policy.  Before the n-th
automatic reconnect (counter starting at 0) the armed timer delay is
`min(1000 * 2^n, 30000)` milliseconds; the attempt counter,
incremented only while strictly below the configured maximum, never
exceeds it (and the constructor default for the maximum is 10); and
reaching the connected state resets the counter to zero. -/
theorem C5_whatsapp_backoff_policy (s t : WhatsAppState)
    (hlt : s.reconnectAttempts < s.maxReconnectAttempts)
    (hsd : s.isShuttingDown = false) :
    WhatsAppAdapter.handleConnectionClose true s
      = ({ s with reconnectAttempts := s.reconnectAttempts + 1 },
         [WaAction.scheduleReconnect (min (1000 * 2 ^ s.reconnectAttempts) 30000)])
    ∧ (WhatsAppAdapter.handleConnectionClose true s).1.reconnectAttempts
        ≤ s.maxReconnectAttempts
    ∧ (WhatsAppAdapter.handleConnectionOpen t).1.reconnectAttempts = 0
    ∧ (WhatsAppAdapter.handleConnectionOpen t).1.status = ConnectionStatus.connected
    ∧ WhatsAppAdapter.initialState.maxReconnectAttempts = 10 := by
  have hbranch : WhatsAppAdapter.handleConnectionClose true s
      = ({ s with reconnectAttempts := s.reconnectAttempts + 1 },
         [WaAction.scheduleReconnect (min (1000 * 2 ^ s.reconnectAttempts) 30000)]) := by
    simp [WhatsAppAdapter.handleConnectionClose, hsd, hlt]
  refine ⟨hbranch, ?_, rfl, rfl, rfl⟩
  rw [hbranch]
  exact hlt

def whatsAppRetryingState : WhatsAppState :=
  { initialized := true, socket := true, status := ConnectionStatus.connecting,
    isShuttingDown := false, reconnectAttempts := 3, maxReconnectAttempts := 10,
    stats := ⟨5, 4, 3⟩ }

/-- Witness for C5 at a concrete state with 3 attempts already made:
the 4th reconnect (counter value 3) is armed after 8000 ms. -/
theorem C5_whatsapp_backoff_policy_witness :
    WhatsAppAdapter.handleConnectionClose true whatsAppRetryingState
      = ({ whatsAppRetryingState with reconnectAttempts := 4 },
         [WaAction.scheduleReconnect 8000]) :=
  (C5_whatsapp_backoff_policy whatsAppRetryingState whatsAppRetryingState
    (by decide) rfl).1

/-- Claim C6: a `connect()` call on an already-connected adapter of any
variant returns without creating another underlying connection and
without emitting any status-change event; the whole adapter state
(status, stats, connection handle) is unchanged. -/
theorem C6_connect_noop_when_connected
    (w1 : TelegramWorld) (s1 : TelegramState)
    (w2 : WhatsAppWorld) (s2 : WhatsAppState)
    (w3 : DiscordWorld) (s3 : DiscordState)
    (h1 : s1.status = ConnectionStatus.connected) (h1i : s1.initialized = true)
    (h2 : s2.status = ConnectionStatus.connected) (h2i : s2.initialized = true)
    (h3 : s3.status = ConnectionStatus.connected) (h3i : s3.initialized = true) :
    TelegramAdapter.connect w1 s1 = ⟨s1, [], none⟩
    ∧ WhatsAppAdapter.connect w2 s2 = ⟨s2, [], none⟩
    ∧ DiscordAdapter.connect w3 s3 = ⟨s3, [], none⟩ := by
  refine ⟨?_, ?_, ?_⟩ <;>
    simp [TelegramAdapter.connect, WhatsAppAdapter.connect, DiscordAdapter.connect,
      h1, h1i, h2, h2i, h3, h3i]

/-- Witness for C6 at concrete connected states. -/
theorem C6_connect_noop_when_connected_witness :
    TelegramAdapter.connect ⟨true, true, true⟩ telegramConnectedState
      = ⟨telegramConnectedState, [], none⟩
    ∧ WhatsAppAdapter.connect ⟨true, true⟩ whatsAppConnectedState
      = ⟨whatsAppConnectedState, [], none⟩
    ∧ DiscordAdapter.connect ⟨true, true⟩ discordConnectedState
      = ⟨discordConnectedState, [], none⟩ :=
  C6_connect_noop_when_connected ⟨true, true, true⟩ telegramConnectedState
    ⟨true, true⟩ whatsAppConnectedState ⟨true, true⟩ discordConnectedState
    rfl rfl rfl rfl rfl rfl

/-! ## OpenClawGateway.shutdown
(websocket-gateway source, `OpenClawGateway`, lines 811-832 of the
gateway file bundled in channel-repository.ts's compilation unit) -/

/-- Which gateway resources exist at shutdown time. -/
structure GatewayState where
  ioServer : Bool
  pubClient : Bool
  subClient : Bool
deriving DecidableEq

/-- Outcomes of the external calls `shutdown` performs. -/
structure GatewayWorld where
  emitOk : Bool
  closeOk : Bool
  quitPubOk : Bool
  quitSubOk : Bool
deriving DecidableEq

/-- The externally visible shutdown steps: the `server.shutdown`
broadcast, closing the Socket.IO transport, and quitting the Redis pub
and sub clients. -/
inductive GatewayAction where
  | emitShutdown : GatewayAction
  | closeTransport : GatewayAction
  | quitPub : GatewayAction
  | quitSub : GatewayAction
deriving DecidableEq

/-- The Redis-quit tail of `shutdown` (lines 824-829). -/
def gatewayQuitSteps (w : GatewayWorld) (s : GatewayState) (done : List GatewayAction) :
    List GatewayAction × Option JsError :=
  if s.pubClient then
    if !w.quitPubOk then (done ++ [GatewayAction.quitPub], some JsError.rejected)
    else if s.subClient then
      if !w.quitSubOk then
        (done ++ [GatewayAction.quitPub, GatewayAction.quitSub], some JsError.rejected)
      else (done ++ [GatewayAction.quitPub, GatewayAction.quitSub], none)
    else (done ++ [GatewayAction.quitPub], none)
  else if s.subClient then
    if !w.quitSubOk then (done ++ [GatewayAction.quitSub], some JsError.rejected)
    else (done ++ [GatewayAction.quitSub], none)
  else (done, none)

/-- `OpenClawGateway.shutdown` (lines 811-832): emit `server.shutdown`
to all clients, close the transport, quit the Redis pub and sub
clients — straight-line code with no try/catch.  The result is the
list of steps that were attempted, in order, and the first error
thrown (which aborts the method, skipping every later step). -/
def OpenClawGateway.shutdown (w : GatewayWorld) (s : GatewayState) :
    List GatewayAction × Option JsError :=
  if s.ioServer then
    if !w.emitOk then ([GatewayAction.emitShutdown], some JsError.rejected)
    else if !w.closeOk then
      ([GatewayAction.emitShutdown, GatewayAction.closeTransport], some JsError.rejected)
    else gatewayQuitSteps w s [GatewayAction.emitShutdown, GatewayAction.closeTransport]
  else gatewayQuitSteps w s []

/-- Claim C7 is false in its guarding part: with all resources present,
an error thrown by the `server.shutdown` emit aborts `shutdown` before
the transport is closed and before either broker connection is closed —
the steps are not independently guarded. -/
theorem C7_counterexample_emit_failure_skips_rest :
    OpenClawGateway.shutdown ⟨false, true, true, true⟩ ⟨true, true, true⟩
      = ([GatewayAction.emitShutdown], some JsError.rejected) :=
  rfl

/-- Claim C7, amended: shutdown performs its steps in the claimed
order — emit the shutdown notice, close the Socket.IO transport, quit
the Redis pub connection, quit the Redis sub connection — but the
steps are not independently guarded: when no step fails they all run
in order, while an error in an earlier step propagates and skips the
later ones. -/
theorem C7_shutdown_ordered_unguarded (w : GatewayWorld) (s : GatewayState)
    (hio : s.ioServer = true) (hpub : s.pubClient = true) (hsub : s.subClient = true)
    (he : w.emitOk = true) (hc : w.closeOk = true)
    (hqp : w.quitPubOk = true) (hqs : w.quitSubOk = true) :
    OpenClawGateway.shutdown w s
      = ([GatewayAction.emitShutdown, GatewayAction.closeTransport,
          GatewayAction.quitPub, GatewayAction.quitSub], none) := by
  simp [OpenClawGateway.shutdown, gatewayQuitSteps, hio, hpub, hsub, he, hc, hqp, hqs]

/-- Witness for the amended C7 with every resource present and every
step succeeding. -/
theorem C7_shutdown_ordered_unguarded_witness :
    OpenClawGateway.shutdown ⟨true, true, true, true⟩ ⟨true, true, true⟩
      = ([GatewayAction.emitShutdown, GatewayAction.closeTransport,
          GatewayAction.quitPub, GatewayAction.quitSub], none) :=
  C7_shutdown_ordered_unguarded ⟨true, true, true, true⟩ ⟨true, true, true⟩
    rfl rfl rfl rfl rfl rfl rfl

/-! ## ChannelRepository
(channel-repository.ts lines 78-347).  Each operation is embedded as
the list of column values its SQL statement writes to
`openclaw.message_channels`. -/

inductive ColumnWrite where
  | userId (v : String) : ColumnWrite
  | organizationId (v : String) : ColumnWrite
  | channelType (v : String) : ColumnWrite
  | channelIdentifier (v : String) : ColumnWrite
  | channelName (v : Option String) : ColumnWrite
  | channelConfig (v : String) : ColumnWrite
  | webhookUrl (v : Option String) : ColumnWrite
  | webhookSecret (v : Option String) : ColumnWrite
  | active (v : Bool) : ColumnWrite
  | verified (v : Bool) : ColumnWrite
  | connectionStatus (v : ConnectionStatus) : ColumnWrite
  | lastError (v : Option String) : ColumnWrite
  | messageCountIncrement : ColumnWrite
  | touchTimestamps : ColumnWrite

structure ChannelRepository where
  encryption : ChannelEncryption

/-- `ChannelRepository.create` (lines 90-136): the INSERT writes the
output of `this.encryption.encrypt(config)` into `channel_config`,
with `active = true`, `verified = false` and disconnected status. -/
def ChannelRepository.create (A : AeadCipher) (J : JsonEngine) (R : ChannelRepository)
    (iv : Bytes) (userId organizationId channelType channelIdentifier : String)
    (channelName : Option String) (config : Json)
    (webhookUrl webhookSecret : Option String) : List ColumnWrite :=
  let encryptedConfig := ChannelEncryption.encrypt A J R.encryption iv config
  [ColumnWrite.userId userId, ColumnWrite.organizationId organizationId,
   ColumnWrite.channelType channelType, ColumnWrite.channelIdentifier channelIdentifier,
   ColumnWrite.channelName channelName, ColumnWrite.channelConfig encryptedConfig,
   ColumnWrite.webhookUrl webhookUrl, ColumnWrite.webhookSecret webhookSecret,
   ColumnWrite.active true, ColumnWrite.verified false,
   ColumnWrite.connectionStatus ConnectionStatus.disconnected]

/-- `ChannelRepository.updateConfig` (lines 208-229): the UPDATE sets
`channel_config` to `this.encryption.encrypt(config)` and touches
`updated_at`. -/
def ChannelRepository.updateConfig (A : AeadCipher) (J : JsonEngine) (R : ChannelRepository)
    (iv : Bytes) (config : Json) : List ColumnWrite :=
  [ColumnWrite.channelConfig (ChannelEncryption.encrypt A J R.encryption iv config),
   ColumnWrite.touchTimestamps]

/-- `ChannelRepository.updateStatus` (lines 234-249). -/
def ChannelRepository.updateStatus (status : ConnectionStatus)
    (lastError : Option String) : List ColumnWrite :=
  [ColumnWrite.connectionStatus status, ColumnWrite.lastError lastError,
   ColumnWrite.touchTimestamps]

/-- `ChannelRepository.incrementMessageCount` (lines 254-267): bumps
`message_count` and touches `last_message_at` and `last_used`. -/
def ChannelRepository.incrementMessageCount : List ColumnWrite :=
  [ColumnWrite.messageCountIncrement, ColumnWrite.touchTimestamps]

/-- `ChannelRepository.markVerified` (lines 272-286). -/
def ChannelRepository.markVerified : List ColumnWrite :=
  [ColumnWrite.verified true, ColumnWrite.connectionStatus ConnectionStatus.connected,
   ColumnWrite.touchTimestamps]

/-- `ChannelRepository.deactivate` (lines 291-304). -/
def ChannelRepository.deactivate : List ColumnWrite :=
  [ColumnWrite.active false, ColumnWrite.connectionStatus ConnectionStatus.disconnected,
   ColumnWrite.touchTimestamps]

/-- `ChannelRepository.delete` (lines 309-319): a row DELETE writes no
column value. -/
def ChannelRepository.delete : List ColumnWrite := []

/-- The values an operation writes into the `channel_config` column. -/
def configValuesWritten (ws : List ColumnWrite) : List String :=
  ws.filterMap fun c =>
    match c with
    | ColumnWrite.channelConfig v => some v
    | _ => none

/-- Claim C8: the only `channel_config` value either writing operation
(`create`, `updateConfig`) stores is the output of
`ChannelEncryption.encrypt` on the plaintext config, and no other
repository operation writes to `channel_config` at all — the plaintext
configuration is never persisted. -/
theorem C8_config_stored_only_encrypted (A : AeadCipher) (J : JsonEngine)
    (R : ChannelRepository) (iv : Bytes)
    (userId organizationId channelType channelIdentifier : String)
    (channelName : Option String) (config : Json)
    (webhookUrl webhookSecret : Option String)
    (status : ConnectionStatus) (lastError : Option String) :
    configValuesWritten (ChannelRepository.create A J R iv userId organizationId
        channelType channelIdentifier channelName config webhookUrl webhookSecret)
      = [ChannelEncryption.encrypt A J R.encryption iv config]
    ∧ configValuesWritten (ChannelRepository.updateConfig A J R iv config)
      = [ChannelEncryption.encrypt A J R.encryption iv config]
    ∧ configValuesWritten (ChannelRepository.updateStatus status lastError) = []
    ∧ configValuesWritten ChannelRepository.incrementMessageCount = []
    ∧ configValuesWritten ChannelRepository.markVerified = []
    ∧ configValuesWritten ChannelRepository.deactivate = []
    ∧ configValuesWritten ChannelRepository.delete = [] :=
  ⟨rfl, rfl, rfl, rfl, rfl, rfl, rfl⟩

/-! ## NexusAuthClient
(src/auth/nexus-auth-client.ts).  Redis content, the external `jwt`
decoder and the auth service are capability parameters. -/

structure AuthenticatedUser where
  userId : String
  organizationId : String
  email : String
  tier : String
  permissions : List String
  exp : Nat
  iat : Nat
deriving DecidableEq

/-- The Redis cache as seen through `redis.get` plus `JSON.parse`. -/
structure AuthStore where
  get : String → Option AuthenticatedUser

/-- External collaborators of `validateToken`: the cache, `jwt.decode`
(the `exp` claim, or `none` for an undecodable token) and the
`/v1/auth/validate` endpoint. -/
structure AuthWorld where
  store : AuthStore
  decodeExp : String → Option Nat
  service : String → Option AuthenticatedUser

/-- `String.slice(-16)` of JS: the last 16 characters (the whole
string when it is shorter). -/
def jsSliceLast (n : Nat) (s : String) : String :=
  ⟨s.data.drop (s.data.length - n)⟩

/-- `NexusAuthClient.getCacheKey` (lines 387-390): the cache key is
`auth:token:` followed by the token's last 16 characters. -/
def NexusAuthClient.getCacheKey (token : String) : String :=
  "auth:token:" ++ jsSliceLast 16 token

/-- `NexusAuthClient.getCachedToken` (lines 326-355): look the key up;
an entry with a nonzero `exp` in the past is deleted and treated as a
miss; otherwise the cached user is returned. -/
def NexusAuthClient.getCachedToken (store : AuthStore) (now : Nat) (token : String) :
    Option AuthenticatedUser :=
  match store.get (NexusAuthClient.getCacheKey token) with
  | none => none
  | some user => if user.exp ≠ 0 ∧ user.exp < now then none else some user

/-- The service-validation tail of `validateToken` (lines 141-194):
decode the token, reject when expired, call the auth service.  The
`Bool` in the result records that the auth service was contacted. -/
def NexusAuthClient.validateWithService (w : AuthWorld) (now : Nat) (token : String) :
    Except String (AuthenticatedUser × Bool) :=
  match w.decodeExp token with
  | none => .error "Failed to decode token"
  | some exp =>
    if exp ≠ 0 ∧ exp < now then .error "Token expired"
    else
      match w.service token with
      | none => .error "Invalid token"
      | some user => .ok (user, true)

/-- `NexusAuthClient.validateToken` (lines 132-195): with Redis
enabled, a cache hit is returned directly without contacting the auth
service. -/
def NexusAuthClient.validateToken (redisEnabled : Bool) (w : AuthWorld) (now : Nat)
    (token : String) : Except String (AuthenticatedUser × Bool) :=
  if redisEnabled then
    match NexusAuthClient.getCachedToken w.store now token with
    | some user => .ok (user, false)
    | none => NexusAuthClient.validateWithService w now token
  else NexusAuthClient.validateWithService w now token

/-- Claim C9: the token cache key depends only on the token's last 16
characters, so two distinct tokens sharing that suffix share a cache
key, and with Redis enabled `validateToken` on the second token
returns the unexpired `AuthenticatedUser` cached for the first without
contacting the auth service (the `false` component). -/
theorem C9_cache_key_suffix_collision (t1 t2 : String) (w : AuthWorld) (now : Nat)
    (u : AuthenticatedUser)
    (hsuffix : jsSliceLast 16 t1 = jsSliceLast 16 t2)
    (hstore : w.store.get (NexusAuthClient.getCacheKey t1) = some u)
    (hfresh : ¬ (u.exp ≠ 0 ∧ u.exp < now)) :
    NexusAuthClient.getCacheKey t1 = NexusAuthClient.getCacheKey t2
    ∧ NexusAuthClient.validateToken true w now t2 = .ok (u, false) := by
  have hk : NexusAuthClient.getCacheKey t1 = NexusAuthClient.getCacheKey t2 := by
    unfold NexusAuthClient.getCacheKey
    rw [hsuffix]
  refine ⟨hk, ?_⟩
  unfold NexusAuthClient.validateToken NexusAuthClient.getCachedToken
  rw [← hk, hstore]
  simp [hfresh]

def witnessAuthUser : AuthenticatedUser :=
  { userId := "user-1", organizationId := "org-1", email := "user-1@example.com",
    tier := "teams", permissions := ["*"], exp := 9999, iat := 1 }

def witnessAuthWorld : AuthWorld :=
  { store := ⟨fun k => if k = "auth:token:0123456789abcdef" then some witnessAuthUser
      else none⟩,
    decodeExp := fun _ => none,
    service := fun _ => none }

/-- Witness for C9: two concrete distinct tokens sharing their final
16 characters; the second returns the user cached for the first,
without a service call. -/
theorem C9_cache_key_suffix_collision_witness :
    NexusAuthClient.validateToken true witnessAuthWorld 100 "BBBB0123456789abcdef"
      = .ok (witnessAuthUser, false) :=
  (C9_cache_key_suffix_collision "AAAA0123456789abcdef" "BBBB0123456789abcdef"
    witnessAuthWorld 100 witnessAuthUser rfl rfl (by decide)).2

/-! ## WhatsAppAdapter.normalizeJid
(whatsapp-adapter.ts lines 538-548) -/

/-- `identifier.replace(/\D/g, '')`: drop every character outside
`0`-`9` (the complement of the regex class `\D`), keeping digits. -/
def jsStripNonDigits : List Char → List Char
  | [] => []
  | c :: rest =>
    if c.isDigit then c :: jsStripNonDigits rest else jsStripNonDigits rest

/-- `WhatsAppAdapter.normalizeJid` (lines 538-548): strip non-digits,
then append `@s.whatsapp.net` unless the identifier already contains
`@`, in which case it is returned unchanged. -/
def WhatsAppAdapter.normalizeJid (identifier : String) : String :=
  let cleaned : String := ⟨jsStripNonDigits identifier.data⟩
  if !(identifier.data.contains '@') then cleaned ++ "@s.whatsapp.net"
  else identifier

theorem jsStripNonDigits_eq_filter (cs : List Char) :
    jsStripNonDigits cs = cs.filter Char.isDigit := by
  induction cs with
  | nil => rfl
  | cons c rest ih =>
    by_cases h : c.isDigit <;> simp [jsStripNonDigits, List.filter, h, ih]

/-- Claim C10: for an identifier without `@`, `normalizeJid` returns
the identifier with all non-digit characters removed followed by
`@s.whatsapp.net`; for an identifier containing `@`, it returns the
identifier unchanged. -/
theorem C10_normalizeJid_spec (identifier : String) :
    WhatsAppAdapter.normalizeJid identifier
      = if identifier.data.contains '@' then identifier
        else (⟨identifier.data.filter Char.isDigit⟩ : String) ++ "@s.whatsapp.net" := by
  unfold WhatsAppAdapter.normalizeJid
  rw [jsStripNonDigits_eq_filter]
  by_cases h : identifier.data.contains '@' <;> simp [h]
